import Mathlib

/-
Verification of the permission-resolution and pagination core of the
registry v2 endpoint module (endpoints/v2/__init__.py).

The embedding mirrors the Python source:
  - `_require_repo_permission` (the decorator family) becomes a pure
    decision function over an explicit environment `Env` that snapshots
    what the request handlers read: feature flags, app config, the
    authenticated context, the repository lookup result for the target
    namespace/name pair, and the outcome of the scope permission check
    `permission_class(namespace_name, repo_name).can()`.
  - each `raise Unauthorized(...)` / `raise Unsupported(...)` becomes a
    `Decision.denied` carrying the constructor arguments used at that
    call site; `return func(...)` becomes `Decision.allowed`.
  - the paginators `paginate` and `oci_tag_paginate` become pure
    functions computing the clamped limit, the decoded cursor, and the
    callback result (the optional Link header, or an index error where
    the Python would raise IndexError).
  - the token codec (util/pagination.py, not part of the shown source)
    is modelled from the spec, see `PageTokenWire`.
-/

namespace Quay

/-- Feature flags read by the module (features.RESTRICTED_USERS etc.),
process-wide and immutable per request. -/
structure Features where
  RESTRICTED_USERS : Bool
  ANONYMOUS_ACCESS : Bool
  SUPERUSERS_FULL_ACCESS : Bool
  SUPER_USERS : Bool
deriving DecidableEq

/-- An authenticated user as read from the database. -/
structure User where
  username : String
deriving DecidableEq

/-- The authentication context returned by get_authenticated_context;
its authed_user field may be absent. -/
structure AuthContext where
  authed_user : Option User
deriving DecidableEq

/-- The usermanager service: per-username classification lookups. -/
structure UserManager where
  is_restricted_user : String → Bool
  is_superuser : String → Bool
  is_global_readonly_superuser : User → Bool

/-- Result of registry_model.lookup_repository for the target pair:
visibility and artifact kind. -/
structure RepositoryRef where
  is_public : Bool
  kind : String
deriving DecidableEq

/-- Everything a single call of the wrapped handler reads from its
surroundings. `lookup_repository` is the (stable within one request)
result of registry_model.lookup_repository(namespace_name, repo_name);
`permission_can` is the result of
permission_class(namespace_name, repo_name).can();
`global_readonly_super_users_configured` is the truthiness of
app.config.get("GLOBAL_READONLY_SUPER_USERS"). -/
structure Env where
  features : Features
  global_readonly_super_users_configured : Bool
  usermanager : UserManager
  context : Option AuthContext
  lookup_repository : Option RepositoryRef
  permission_can : Bool

/-- The two registry exceptions raised by _require_repo_permission, with
the arguments of each raise site: Unauthorized(repository=, scopes=,
detail=) where an omitted argument is `none`, and Unsupported(detail=). -/
inductive V2Error where
  | unauthorized (repository : Option String) (scopes : Option (List String))
      (detail : Option String)
  | unsupported (detail : String)
deriving DecidableEq

/-- Outcome of one wrapped call: either the handler runs (allowed) or a
registry exception is raised (denied). -/
inductive Decision where
  | allowed
  | denied (e : V2Error)
deriving DecidableEq

/-- The restricted-users block guarding the top of the wrapped handler
(the `if features.RESTRICTED_USERS and disallow_for_restricted_users:`
block). Returns `some d` when that block decides the call (returns or
raises) and `none` when control falls through to the permission check. -/
def restricted_user_check (env : Env) (disallow_for_restricted_users : Bool)
    (allow_public : Bool) (namespace_name : String) : Option Decision :=
  if env.features.RESTRICTED_USERS && disallow_for_restricted_users then
    if allow_public then
      match env.lookup_repository with
      | none => some (Decision.denied (V2Error.unauthorized none none none))
      | some repository_ref =>
        if !repository_ref.is_public then
          some (Decision.denied (V2Error.unauthorized none none none))
        else if !env.features.ANONYMOUS_ACCESS then
          some (Decision.denied (V2Error.unauthorized none none none))
        else
          some Decision.allowed
    else
      match env.context with
      | none => none
      | some context =>
        match context.authed_user with
        | none => none
        | some authed_user =>
          if authed_user.username == namespace_name
              && env.usermanager.is_restricted_user authed_user.username
              && !env.usermanager.is_superuser authed_user.username then
            some (Decision.denied
              (V2Error.unauthorized none none (some ("Disallowed for restricted users."))))
          else
            none
  else
    none

/-- The superuser full-access fallback (the
`if features.SUPERUSERS_FULL_ACCESS and allow_for_superuser:` block):
true when it grants access. -/
def superuser_full_access_check (env : Env) (allow_for_superuser : Bool) : Bool :=
  env.features.SUPERUSERS_FULL_ACCESS && allow_for_superuser &&
    (match env.context with
     | none => false
     | some context =>
       match context.authed_user with
       | none => false
       | some authed_user => env.usermanager.is_superuser authed_user.username)

/-- The trailing public-repository fallback of the wrapped handler: the
`if allow_public:` block followed by the final `raise Unauthorized`.
`repository` is the label namespace_name + "/" + repo_name. -/
def public_fallback (env : Env) (scopes : Option (List String))
    (allow_public : Bool) (repository : String) : Decision :=
  if allow_public then
    match env.lookup_repository with
    | none => Decision.denied (V2Error.unauthorized (some repository) scopes none)
    | some repository_ref =>
      if !repository_ref.is_public then
        Decision.denied (V2Error.unauthorized (some repository) scopes none)
      else if repository_ref.kind ≠ "image" then
        Decision.denied (V2Error.unsupported
          ("This repository is for managing " ++ repository_ref.kind
            ++ " and not container images."))
      else if repository_ref.is_public then
        if !env.features.ANONYMOUS_ACCESS then
          Decision.denied (V2Error.unauthorized (some repository) scopes none)
        else
          Decision.allowed
      else if env.features.SUPER_USERS && env.global_readonly_super_users_configured &&
          (match env.context with
           | none => false
           | some context =>
             match context.authed_user with
             | none => false
             | some authed_user =>
               env.usermanager.is_global_readonly_superuser authed_user) then
        Decision.allowed
      else
        Decision.denied (V2Error.unauthorized (some repository) scopes none)
  else
    Decision.denied (V2Error.unauthorized (some repository) scopes none)

/-- The whole wrapped handler of _require_repo_permission: the
restricted-users block, then `permission.can()`, then the superuser
fallback, then the public fallback and the final raise. -/
def _require_repo_permission (env : Env) (scopes : Option (List String))
    (allow_public : Bool) (allow_for_superuser : Bool)
    (disallow_for_restricted_users : Bool)
    (namespace_name repo_name : String) : Decision :=
  match restricted_user_check env disallow_for_restricted_users allow_public namespace_name with
  | some decision => decision
  | none =>
    if env.permission_can then
      Decision.allowed
    else if superuser_full_access_check env allow_for_superuser then
      Decision.allowed
    else
      public_fallback env scopes allow_public (namespace_name ++ "/" ++ repo_name)

/- Pagination -/

/-- A decrypted page token is a small field mapping; start_id values are
database ids, modelled as naturals. -/
abbrev FieldMap := List (String × Nat)

/-- Modelled from the spec: util/pagination.py (encrypt_page_token and
decrypt_page_token) is not part of the shown source. Per the spec the
codec round-trips every field mapping, decodes an absent token to none,
and decodes a malformed or tampered token to none rather than raising.
A wire token is therefore either a well-formed encryption of a mapping
or garbage. -/
inductive PageTokenWire where
  | enc (m : FieldMap)
  | garbage (s : String)
deriving DecidableEq

/-- Modelled from the spec: encrypt_page_token produces the well-formed
wire token of a mapping. -/
def encrypt_page_token (m : FieldMap) : PageTokenWire :=
  PageTokenWire.enc m

/-- Modelled from the spec: decrypt_page_token accepts an optional wire
token; absent and malformed tokens both decode to none. -/
def decrypt_page_token : Option PageTokenWire → Option FieldMap
  | none => none
  | some (PageTokenWire.enc m) => some m
  | some (PageTokenWire.garbage _) => none

/-- The requested page-size parameter `n` as the offset paginator sees
it: absent, a parsed integer, or non-numeric (int() raised ValueError). -/
inductive NParam where
  | absent
  | int (k : Int)
  | invalid
deriving DecidableEq

/-- The process-wide maximum page size:
max(app.config.get("V2_PAGINATION_SIZE", 100), 100). -/
def _MAX_RESULTS_PER_PAGE (v2_pagination_size : Option Int) : Int :=
  max (v2_pagination_size.getD 100) 100

/-- requested_limit in paginate: int(request.args.get("n", MAX)) with
ValueError mapped to 0. -/
def paginate_requested_limit (maxPerPage : Int) : NParam → Int
  | NParam.absent => maxPerPage
  | NParam.int k => k
  | NParam.invalid => 0

/-- limit in paginate: max(min(requested_limit, MAX), 1). -/
def paginate_limit (maxPerPage : Int) (n : NParam) : Int :=
  max (min (paginate_requested_limit maxPerPage n) maxPerPage) 1

/-- start_id in paginate: the token is request.args.get("next_page",
request.args.get("last", None)); it is decrypted and, when that yields a
mapping, start_id is page_info.get("start_id", None). -/
def paginate_start_id (next_page : Option PageTokenWire)
    (last : Option PageTokenWire) : Option Nat :=
  let next_page_token := match next_page with
    | some t => some t
    | none => last
  match decrypt_page_token next_page_token with
  | none => none
  | some page_info => page_info.lookup ("start_id")

/-- A result row as the callbacks see it: an object with an id and a
name. -/
structure Obj where
  id : Nat
  name : String
deriving DecidableEq

/-- max([obj.id for obj in results]): on the nonempty lists where the
source evaluates it, the fold from 0 over naturals equals the Python
max. -/
def results_max_id (results : List Obj) : Nat :=
  (results.map Obj.id).foldl Nat.max 0

/-- The Link header attached by the offset paginator callback: the query
carries n = limit and next_page = token. -/
structure LinkNext where
  n : Int
  token : PageTokenWire
deriving DecidableEq

/-- The callback of paginate: attaches nothing when
len(results) <= limit, otherwise encrypts
{start_id: max([obj.id for obj in results])} and attaches the Link
header. -/
def paginate_callback (limit : Int) (results : List Obj) : Option LinkNext :=
  if (results.length : Int) ≤ limit then
    none
  else
    some { n := limit
         , token := encrypt_page_token [(("start_id" : String), results_max_id results)] }

/-- The query parameters of oci_tag_paginate as parsed inside the try
block: none models the ValueError branch, otherwise the values of
request.args.get("n", MAX, type=int) and
request.args.get("last", None, type=str). -/
structure OciParsedArgs where
  requested_limit : Int
  last_tag_name : Option String
deriving DecidableEq

/-- Python str.strip() with no argument: the string with leading and
trailing whitespace removed. -/
def pyStrip (s : String) : String :=
  String.mk (((s.data.dropWhile Char.isWhitespace).reverse.dropWhile
    Char.isWhitespace).reverse)

/-- The limit and cursor computed by oci_tag_paginate: on a parse error
requested_limit falls back to MAX and the cursor to none; the limit is
clamped as in paginate and a present cursor is stripped of surrounding
whitespace. -/
def oci_tag_prepare (maxPerPage : Int) (parsed : Option OciParsedArgs) :
    Int × Option String :=
  let requested_limit := match parsed with
    | none => maxPerPage
    | some args => args.requested_limit
  let last0 := match parsed with
    | none => none
    | some args => args.last_tag_name
  let limit := max (min requested_limit maxPerPage) 1
  let last_tag_name := match last0 with
    | none => none
    | some s => some (pyStrip s)
  (limit, last_tag_name)

/-- Outcome of the oci_tag_paginate callback: no header, a Link header
with query n = limit and last = results[-1].name, or the IndexError that
results[-1] raises on an empty list. -/
inductive TagCallbackResult where
  | noHeader
  | header (n : Int) (last : String)
  | indexError
deriving DecidableEq

/-- The callback of oci_tag_paginate: returns immediately when not
has_more, otherwise reads results[-1].name unguarded to build the Link
header. -/
def oci_tag_callback (limit : Int) (results : List Obj) (has_more : Bool) :
    TagCallbackResult :=
  if !has_more then
    TagCallbackResult.noHeader
  else
    match results.getLast? with
    | none => TagCallbackResult.indexError
    | some last => TagCallbackResult.header limit last.name

/- Concrete environments used by the counterexamples and witnesses. -/

/-- A user manager on which every classification lookup is false. -/
def umNone : UserManager :=
  { is_restricted_user := fun _ => false
  , is_superuser := fun _ => false
  , is_global_readonly_superuser := fun _ => false }

/-- Restricted-user policy active, caller alice authenticated, target
namespace bob, scope permission granted, repository private. -/
def envC1 : Env :=
  { features := { RESTRICTED_USERS := true, ANONYMOUS_ACCESS := true
                , SUPERUSERS_FULL_ACCESS := false, SUPER_USERS := false }
  , global_readonly_super_users_configured := false
  , usermanager := umNone
  , context := some { authed_user := some { username := "alice" } }
  , lookup_repository := some { is_public := false, kind := "image" }
  , permission_can := true }

/-- Claim C1, counterexample: restricted-user policy is active,
allow_public is set, the caller (alice) is not acting on the target
namespace (bob) so the rule 1 deny condition does not apply, the scope
permission is granted, the repository is private — and the call is
denied with a plain Unauthorized, not allowed: the allow_public branch
of the restricted-users block decides the call from repository
visibility alone and never consults the scope permission. -/
theorem C1_counterexample :
    envC1.features.RESTRICTED_USERS = true ∧
    envC1.permission_can = true ∧
    (∃ r, envC1.lookup_repository = some r ∧ r.is_public = false) ∧
    _require_repo_permission envC1 (some ["pull"]) true false true "bob" "repo" =
      Decision.denied (V2Error.unauthorized none none none) ∧
    _require_repo_permission envC1 (some ["pull"]) true false true "bob" "repo" ≠
      Decision.allowed := by
  refine ⟨rfl, rfl, ⟨{ is_public := false, kind := "image" }, rfl, rfl⟩, rfl, ?_⟩
  decide

/-- Claim C1, amended: with restricted-user policy active and
allow_public set, the scope-based permission is never reached; the call
is allowed exactly when the repository exists, is public, and anonymous
access is globally enabled, and otherwise denied even when the caller
holds the permission. -/
theorem C1_restricted_allow_public_skips_scope_check (env : Env)
    (scopes : Option (List String)) (afs : Bool) (ns rn : String)
    (hr : env.features.RESTRICTED_USERS = true) :
    _require_repo_permission env scopes true afs true ns rn = Decision.allowed ↔
      ∃ r, env.lookup_repository = some r ∧ r.is_public = true ∧
        env.features.ANONYMOUS_ACCESS = true := by
  unfold _require_repo_permission restricted_user_check
  rw [hr]
  cases hl : env.lookup_repository with
  | none => simp
  | some r =>
    cases hp : r.is_public with
    | false => simp [hp]
    | true =>
      cases ha : env.features.ANONYMOUS_ACCESS with
      | false => simp [hp, ha]
      | true => simp [hp, ha]

/-- Witness for the amended C1: a public repository with anonymous
access enabled is allowed under active restricted-user policy. -/
theorem C1_restricted_allow_public_skips_scope_check_witness :
    _require_repo_permission
      { envC1 with lookup_repository := some { is_public := true, kind := "image" } }
      (some ["pull"]) true false true "bob" "repo" = Decision.allowed := by
  exact (C1_restricted_allow_public_skips_scope_check
    { envC1 with lookup_repository := some { is_public := true, kind := "image" } }
    (some ["pull"]) false "bob" "repo" rfl).mpr
    ⟨{ is_public := true, kind := "image" }, rfl, rfl, rfl⟩

/-- Public image repository, anonymous access disabled, global
readonly-superuser mode configured, caller flagged global readonly
superuser, no direct permission. -/
def envC2 : Env :=
  { features := { RESTRICTED_USERS := false, ANONYMOUS_ACCESS := false
                , SUPERUSERS_FULL_ACCESS := false, SUPER_USERS := true }
  , global_readonly_super_users_configured := true
  , usermanager := { is_restricted_user := fun _ => false
                   , is_superuser := fun _ => false
                   , is_global_readonly_superuser := fun _ => true }
  , context := some { authed_user := some { username := "rosu" } }
  , lookup_repository := some { is_public := true, kind := "image" }
  , permission_can := false }

/-- Claim C2: the spec says a flagged global-readonly superuser is
allowed to read a public repository even with anonymous access disabled,
but the code denies: the readonly-superuser block sits under a branch
that is unreachable (the repository is always public at that point, so
the anonymous-access raise fires first), and the request ends in
Unauthorized. -/
theorem C2_global_readonly_superuser_denied :
    envC2.features.SUPER_USERS = true ∧
    envC2.global_readonly_super_users_configured = true ∧
    (∃ ctx u, envC2.context = some ctx ∧ ctx.authed_user = some u ∧
      envC2.usermanager.is_global_readonly_superuser u = true) ∧
    (∃ r, envC2.lookup_repository = some r ∧ r.is_public = true ∧ r.kind = "image") ∧
    envC2.features.ANONYMOUS_ACCESS = false ∧
    _require_repo_permission envC2 (some ["pull"]) true false false "ns" "repo" =
      Decision.denied (V2Error.unauthorized (some ("ns/repo")) (some ["pull"]) none) := by
  refine ⟨rfl, rfl,
    ⟨{ authed_user := some { username := "rosu" } }, { username := "rosu" }, rfl, rfl, rfl⟩,
    ⟨{ is_public := true, kind := "image" }, rfl, rfl, rfl⟩, rfl, ?_⟩
  decide

/-- Restricted-user policy active, caller alice acting on her own
namespace, flagged restricted and not superuser, repository private,
scope permission granted. -/
def envC4 : Env :=
  { features := { RESTRICTED_USERS := true, ANONYMOUS_ACCESS := true
                , SUPERUSERS_FULL_ACCESS := false, SUPER_USERS := false }
  , global_readonly_super_users_configured := false
  , usermanager := { is_restricted_user := fun _ => true
                   , is_superuser := fun _ => false
                   , is_global_readonly_superuser := fun _ => false }
  , context := some { authed_user := some { username := "alice" } }
  , lookup_repository := some { is_public := false, kind := "image" }
  , permission_can := true }

/-- Claim C4, counterexample: with allow_public set, a restricted
non-super user acting on the own namespace against a private repository
is denied, but with a plain Unauthorized carrying no detail — not with
the distinguished restricted-user detail the claim requires for every
such call. -/
theorem C4_counterexample :
    envC4.features.RESTRICTED_USERS = true ∧
    envC4.usermanager.is_restricted_user ("alice") = true ∧
    envC4.usermanager.is_superuser ("alice") = false ∧
    _require_repo_permission envC4 (some ["pull"]) true false true "alice" "repo" =
      Decision.denied (V2Error.unauthorized none none none) ∧
    _require_repo_permission envC4 (some ["pull"]) true false true "alice" "repo" ≠
      Decision.denied (V2Error.unauthorized none none
        (some ("Disallowed for restricted users."))) := by
  refine ⟨rfl, rfl, rfl, rfl, ?_⟩
  decide

/-- Claim C4, amended: under active restricted-user policy, a restricted
non-super authenticated caller acting on the own namespace against a
private repository is always denied, regardless of scope grants; the
denial carries the distinguished restricted-user detail exactly when
allow_public is not set, and is a plain Unauthorized when allow_public
is set (that branch denies on visibility alone, before the caller is
examined). -/
theorem C4_restricted_own_namespace_denied (env : Env)
    (scopes : Option (List String)) (ap afs : Bool) (ns rn : String)
    (hr : env.features.RESTRICTED_USERS = true)
    (ctx : AuthContext) (u : User)
    (hc : env.context = some ctx) (hu : ctx.authed_user = some u)
    (hn : u.username = ns)
    (hres : env.usermanager.is_restricted_user u.username = true)
    (hsup : env.usermanager.is_superuser u.username = false)
    (r : RepositoryRef) (hl : env.lookup_repository = some r)
    (hpriv : r.is_public = false) :
    _require_repo_permission env scopes ap afs true ns rn =
      (if ap then Decision.denied (V2Error.unauthorized none none none)
       else Decision.denied (V2Error.unauthorized none none
         (some ("Disallowed for restricted users.")))) := by
  unfold _require_repo_permission restricted_user_check
  rw [hr, hl, hc]
  cases ap with
  | true => simp [hpriv]
  | false =>
    subst hn
    simp [hu, hres, hsup]

/-- Witness for the amended C4: alice on her own namespace without
allow_public is denied with the distinguished detail. -/
theorem C4_restricted_own_namespace_denied_witness :
    _require_repo_permission envC4 none false false true "alice" "repo" =
      Decision.denied (V2Error.unauthorized none none
        (some ("Disallowed for restricted users."))) := by
  have h := C4_restricted_own_namespace_denied envC4 none false false "alice" "repo"
    rfl { authed_user := some { username := "alice" } } { username := "alice" }
    rfl rfl rfl rfl rfl { is_public := false, kind := "image" } rfl rfl
  simpa using h

/-- Restricted-user policy inactive, no caller, no permission, public
repository of kind helm. -/
def envC5 : Env :=
  { features := { RESTRICTED_USERS := false, ANONYMOUS_ACCESS := true
                , SUPERUSERS_FULL_ACCESS := false, SUPER_USERS := false }
  , global_readonly_super_users_configured := false
  , usermanager := umNone
  , context := none
  , lookup_repository := some { is_public := true, kind := "helm" }
  , permission_can := false }

/-- Claim C5: with allow_public set, when no earlier rule decided the
call (the restricted-users block fell through, the scope permission was
denied, the superuser fallback did not fire) and the repository is
public but not of kind image, the call fails with Unsupported whose
message names the kind — not with Unauthorized. -/
theorem C5_wrong_kind_unsupported (env : Env) (scopes : Option (List String))
    (afs dfr : Bool) (ns rn : String)
    (hshort : restricted_user_check env dfr true ns = none)
    (hperm : env.permission_can = false)
    (hsup : superuser_full_access_check env afs = false)
    (r : RepositoryRef) (hl : env.lookup_repository = some r)
    (hpub : r.is_public = true) (hkind : r.kind ≠ "image") :
    _require_repo_permission env scopes true afs dfr ns rn =
      Decision.denied (V2Error.unsupported
        ("This repository is for managing " ++ r.kind ++ " and not container images.")) := by
  unfold _require_repo_permission
  rw [hshort]
  unfold public_fallback
  rw [hl]
  simp [hperm, hsup, hpub, hkind]

/-- Witness for C5: an anonymous caller on a public helm repository gets
Unsupported. -/
theorem C5_wrong_kind_unsupported_witness :
    _require_repo_permission envC5 (some ["pull"]) true false false "n" "r" =
      Decision.denied (V2Error.unsupported
        ("This repository is for managing " ++ "helm" ++ " and not container images.")) := by
  exact C5_wrong_kind_unsupported envC5 (some ["pull"]) false false "n" "r" rfl rfl rfl
    { is_public := true, kind := "helm" } rfl rfl (by decide)

/-- Claim C6: for every integer requested as n the computed limit lies
in [1, MAX]; clamp 0 gives 1; clamp (MAX + 500) gives MAX; a non-numeric
n is treated as 0 and so gives 1, not the default MAX. -/
theorem C6_limit_clamped (cfg : Option Int) (k : Int) :
    (1 ≤ paginate_limit (_MAX_RESULTS_PER_PAGE cfg) (NParam.int k) ∧
      paginate_limit (_MAX_RESULTS_PER_PAGE cfg) (NParam.int k) ≤ _MAX_RESULTS_PER_PAGE cfg) ∧
    paginate_limit (_MAX_RESULTS_PER_PAGE cfg) (NParam.int 0) = 1 ∧
    paginate_limit (_MAX_RESULTS_PER_PAGE cfg) (NParam.int (_MAX_RESULTS_PER_PAGE cfg + 500)) =
      _MAX_RESULTS_PER_PAGE cfg ∧
    paginate_limit (_MAX_RESULTS_PER_PAGE cfg) NParam.invalid = 1 := by
  have h100 : (100 : Int) ≤ _MAX_RESULTS_PER_PAGE cfg := le_max_right _ _
  simp only [paginate_limit, paginate_requested_limit]
  refine ⟨⟨le_max_right _ _, max_le (min_le_right _ _) (by omega)⟩, ?_, ?_, ?_⟩
  · rw [min_eq_left (by omega), max_eq_right (by omega)]
  · rw [min_eq_right (by omega), max_eq_left (by omega)]
  · rw [min_eq_left (by omega), max_eq_right (by omega)]

/-- Claim C7: the token codec round-trips every field mapping, decodes
an absent token to none, and decodes a malformed or tampered token to
none rather than raising (the paginator then proceeds without a
start_id). -/
theorem C7_codec_roundtrip (m : FieldMap) (s : String) :
    decrypt_page_token (some (encrypt_page_token m)) = some m ∧
    decrypt_page_token none = none ∧
    decrypt_page_token (some (PageTokenWire.garbage s)) = none :=
  ⟨rfl, rfl, rfl⟩

/-- Claim C8: when parsing the query parameters of the name-cursor
paginator raises, n and last are dropped together — the limit falls back
to MAX and the cursor to absent — whereas in the offset paginator a
non-numeric n collapses the limit to 1 while the cursor is still decoded
and honored. -/
theorem C8_parse_error_drops_both (cfg : Option Int) (m : FieldMap) :
    oci_tag_prepare (_MAX_RESULTS_PER_PAGE cfg) none = (_MAX_RESULTS_PER_PAGE cfg, none) ∧
    paginate_limit (_MAX_RESULTS_PER_PAGE cfg) NParam.invalid = 1 ∧
    paginate_start_id (some (encrypt_page_token m)) none = m.lookup ("start_id") := by
  have h100 : (100 : Int) ≤ _MAX_RESULTS_PER_PAGE cfg := le_max_right _ _
  refine ⟨?_, ?_, rfl⟩
  · unfold oci_tag_prepare
    simp only [min_self]
    rw [max_eq_left (by omega)]
  · simp only [paginate_limit, paginate_requested_limit]
    rw [min_eq_left (by omega), max_eq_right (by omega)]

/-- The two-element result list used against the offset paginator
callback: ids 1 and 2, page limit 1. -/
def resultsC3 : List Obj := [{ id := 1, name := "a" }, { id := 2, name := "b" }]

/-- Claim C3, counterexample: with limit 1 and an over-fetched second
result, the attached token encodes start_id 2 — the maximum id over all
results handed to the callback — while the maximum id among the first
limit items (the page the client sees) is 1. -/
theorem C3_counterexample :
    (1 : Int) < (resultsC3.length : Int) ∧
    paginate_callback 1 resultsC3 =
      some { n := 1, token := PageTokenWire.enc [(("start_id" : String), 2)] } ∧
    results_max_id (resultsC3.take 1) = 1 ∧
    (2 : Nat) ≠ 1 := by
  decide

/-- Claim C3, amended: when more results than the limit were fetched,
the attached Link token decodes to a start_id equal to the maximum id
among all results passed to finish, the over-fetched extra included;
when the results fit within the limit nothing is attached. -/
theorem C3_link_token_uses_all_results (limit : Int) (results : List Obj) :
    ((results.length : Int) ≤ limit → paginate_callback limit results = none) ∧
    (limit < (results.length : Int) →
      ∃ link, paginate_callback limit results = some link ∧ link.n = limit ∧
        decrypt_page_token (some link.token) =
          some [(("start_id" : String), results_max_id results)]) := by
  constructor
  · intro h
    unfold paginate_callback
    rw [if_pos h]
  · intro h
    refine ⟨{ n := limit
            , token := encrypt_page_token [(("start_id" : String), results_max_id results)] },
      ?_, rfl, rfl⟩
    unfold paginate_callback
    rw [if_neg (not_le.mpr h)]

/-- Witness for the amended C3 at limit 1 with two results. -/
theorem C3_link_token_uses_all_results_witness :
    (1 : Int) < (resultsC3.length : Int) ∧
    ∃ link, paginate_callback 1 resultsC3 = some link ∧ link.n = 1 ∧
      decrypt_page_token (some link.token) =
        some [(("start_id" : String), results_max_id resultsC3)] :=
  ⟨by decide, (C3_link_token_uses_all_results 1 resultsC3).2 (by decide)⟩

/-- Claim C9, counterexample: a whitespace-only last parameter is
trimmed to the empty string and handed to the handler as an empty
cursor, not normalized to absent. -/
theorem C9_counterexample :
    oci_tag_prepare 100 (some { requested_limit := 5, last_tag_name := some ("   ") }) =
      (5, some ("")) ∧
    (some ("") : Option String) ≠ none := by
  decide

/-- Claim C9, amended: a present last parameter is handed to the handler
trimmed of surrounding whitespace, so an empty or whitespace-only value
becomes the empty-string cursor rather than absent; only a missing
parameter yields an absent cursor. -/
theorem C9_cursor_trimmed_not_normalized (maxPerPage req : Int) (s : String) :
    (oci_tag_prepare maxPerPage
      (some { requested_limit := req, last_tag_name := some s })).2 = some (pyStrip s) ∧
    (oci_tag_prepare maxPerPage
      (some { requested_limit := req, last_tag_name := none })).2 = none :=
  ⟨rfl, rfl⟩

/-- Claim C10: when the name-cursor callback is invoked with has_more
true it reads the last element of results unguarded: on an empty list it
fails with an index error instead of attaching or skipping the Link
header, and on a non-empty list the header carries the name of the last
element. -/
theorem C10_has_more_reads_last_unguarded (limit : Int) (results : List Obj) :
    (results = [] → oci_tag_callback limit results true = TagCallbackResult.indexError) ∧
    (∀ last, results.getLast? = some last →
      oci_tag_callback limit results true = TagCallbackResult.header limit last.name) := by
  constructor
  · intro h
    subst h
    rfl
  · intro last h
    simp [oci_tag_callback, h]

/-- Witness for C10: an empty list under has_more gives the index error,
a singleton gives a header naming its only element. -/
theorem C10_has_more_reads_last_unguarded_witness :
    oci_tag_callback 5 [] true = TagCallbackResult.indexError ∧
    oci_tag_callback 5 [{ id := 1, name := "t" }] true = TagCallbackResult.header 5 ("t") :=
  ⟨(C10_has_more_reads_last_unguarded 5 []).1 rfl,
   (C10_has_more_reads_last_unguarded 5 [{ id := 1, name := "t" }]).2
     { id := 1, name := "t" } rfl⟩

end Quay
